import Mathlib

/-! Shallow embedding of the takeoff-simulation, prediction and alerting core of the
aviation dashboard (src/components/prediction-panel.tsx) and of the prediction proxy
route (src/app/api/predict/route.ts).  JavaScript numbers are modelled as rationals;
the jitter produced by Math.random() is passed in as an explicit parameter everywhere
the source draws randomness.  Rationals have no NaN or Infinity, so the finiteness
check of the sequence builder is modelled as a constantly-false predicate. -/

namespace AviationSim

/-- Risk tier used throughout the dashboard. -/
inductive Risk where
  | safe
  | warning
  | danger
deriving DecidableEq

/-- Severity order on tiers: safe < warning < danger. -/
def Risk.severity : Risk → ℕ
  | Risk.safe => 0
  | Risk.warning => 1
  | Risk.danger => 2

/-- Worst (highest-severity) of two tiers. -/
def riskMax (a b : Risk) : Risk :=
  if a.severity < b.severity then b else a

/-- Status string attached to a tier, as in the success and fallback paths of
predictSubsystemRUL. -/
def statusOf : Risk → String
  | Risk.danger => "Critical Condition"
  | Risk.warning => "Monitor Closely"
  | Risk.safe => "Normal Operation"

/-- Subsystem risk classification (prediction-panel.tsx lines 387-396):
danger below 25 cycles, warning below 60, otherwise safe. -/
def classifySubsystem (rul : ℚ) : Risk :=
  if rul < 25 then Risk.danger
  else if rul < 60 then Risk.warning
  else Risk.safe

/-- Engine risk classification (prediction-panel.tsx lines 616-619 in the
alert-level effect): danger below 30, warning below 80, otherwise safe. -/
def classifyEngine (rul : ℚ) : Risk :=
  if rul < 30 then Risk.danger
  else if rul < 80 then Risk.warning
  else Risk.safe

/-- A subsystem prediction as produced by predictSubsystemRUL.  The
failure_probability and sensor_data payload fields are not modelled; no claim
mentions them. -/
structure SubsystemPrediction where
  subsystem : String
  rul : ℚ
  risk_level : Risk
  status : String
  cycle : ℕ
deriving DecidableEq

/-- One step of the subsystem loop in the alert-level effect
(prediction-panel.tsx lines 623-629). -/
def alertStep (lvl : Risk) (p : SubsystemPrediction) : Risk :=
  if p.rul < 30 ∧ lvl ≠ Risk.danger then Risk.danger
  else if p.rul < 80 ∧ lvl = Risk.safe then Risk.warning
  else lvl

/-- The newAlertLevel computation of the alert-level effect (lines 613-629):
the engine RUL is classified with the 30/80 thresholds and then every
subsystem RUL is folded in, also against the 30/80 thresholds. -/
def computeAlertLevel (currentRUL : ℚ) (preds : List SubsystemPrediction) : Risk :=
  preds.foldl alertStep
    (if currentRUL < 30 then Risk.danger
     else if currentRUL < 80 then Risk.warning
     else Risk.safe)

/-- Modelled from the spec's words (for comparison with computeAlertLevel):
the worst tier among the engine's own classification and the stored
classifications of the subsystem predictions. -/
def worstClassifiedTier (engineRUL : ℚ) (preds : List SubsystemPrediction) : Risk :=
  preds.foldl (fun a p => riskMax a p.risk_level) (classifyEngine engineRUL)

/-- Worst tier obtained by applying the ENGINE thresholds (30/80) to the engine
RUL and to every subsystem RUL; this is what the alert-level effect actually
computes. -/
def worstEngineThresholdTier (engineRUL : ℚ) (preds : List SubsystemPrediction) : Risk :=
  preds.foldl (fun a p => riskMax a (classifyEngine p.rul)) (classifyEngine engineRUL)

/-- Body of a successful subsystem upstream response: the four prediction keys
the client probes, each possibly absent. predicted_named_output stands for the
computed key predicted_(name)_output. -/
structure SubsystemResponse where
  predicted_RUL : Option ℚ
  predicted_named_output : Option ℚ
  prediction : Option ℚ
  rul : Option ℚ
deriving DecidableEq

/-- Body of a successful engine upstream response. -/
structure EngineResponse where
  predicted_engine_output : Option ℚ
  prediction : Option ℚ
deriving DecidableEq

/-- JavaScript a-or-b on numbers: an absent key or the (falsy) value 0 falls
through to the right operand. -/
def jsOrQ (x : Option ℚ) (y : ℚ) : ℚ :=
  match x with
  | some v => if v = 0 then y else v
  | none => y

/-- RUL extraction of the subsystem client (line 362):
result.predicted_RUL or result.predicted_(name)_output or result.prediction
or result.rul or 0, with JavaScript or-semantics. -/
def extractRawRUL (r : SubsystemResponse) : ℚ :=
  jsOrQ r.predicted_RUL (jsOrQ r.predicted_named_output (jsOrQ r.prediction (jsOrQ r.rul 0)))

/-- RUL extraction of the engine client (line 775):
result.predicted_engine_output or result.prediction or 0. -/
def extractEngineRaw (r : EngineResponse) : ℚ :=
  jsOrQ r.predicted_engine_output (jsOrQ r.prediction 0)

/-- Normalization pipeline of the subsystem client (lines 364-385).  jitter is
the randomVariation draw (Math.random()-0.5)*2. -/
def normalizeRUL (raw : ℚ) (t : ℕ) (jitter : ℚ) : ℚ :=
  let degradationFactor := min ((t : ℚ) / 50) 1
  let rul :=
    if raw < 0 then max 1 (min 20 (|raw| + jitter - degradationFactor * 5))
    else if raw > 200 then min (raw - degradationFactor * 20 + jitter) 150
    else max 1 (raw - degradationFactor * 10 + jitter)
  max 1 rul

/-- JavaScript Math.round(x*10)/10 (line 402), rounding half toward positive
infinity. -/
def roundTenth (x : ℚ) : ℚ :=
  (⌊x * 10 + 1 / 2⌋ : ℚ) / 10

/-- The prediction pushed on the success path (lines 357-412): raw value is
extracted, normalized, classified with the subsystem thresholds (on the
unrounded value) and stored rounded to one decimal. -/
def successPrediction (name : String) (resp : SubsystemResponse) (t : ℕ) (jitter : ℚ) :
    SubsystemPrediction :=
  let rul := normalizeRUL (extractRawRUL resp) t jitter
  { subsystem := name, rul := roundTenth rul, risk_level := classifySubsystem rul,
    status := statusOf (classifySubsystem rul), cycle := t }

/-- The current subsystem sensor readings used by the sequence builder. -/
structure SubsystemSensorData where
  hydraulic_pressure : ℚ
  hydraulic_flow : ℚ
  hydraulic_temp : ℚ
  electrical_voltage : ℚ
  electrical_current : ℚ
  control_surface_deflection : ℚ
  cabin_pressure : ℚ
  altimeter_drift : ℚ
deriving DecidableEq

/-- The initial subsystem sensor values of the component (lines 130-148). -/
def initialSensors : SubsystemSensorData :=
  { hydraulic_pressure := 3000, hydraulic_flow := 8.5, hydraulic_temp := 120,
    electrical_voltage := 28.5, electrical_current := 15,
    control_surface_deflection := 5, cabin_pressure := 14.7, altimeter_drift := 2 }

/-- The check !Number.isFinite(value) or isNaN(value) of the sequence builder
(line 292).  A rational is never NaN or Infinity, so over this model the check
is constantly false. -/
def jsIsInvalid (_ : ℚ) : Bool := false

/-- One loop iteration of createSubsystemSequence (lines 237-282): the row
pushed for a known subsystem name at a given timestep, or nothing for an
unknown name.  g supplies the Math.random() draws, indexed per channel. -/
def subsystemRowOpt (name : String) (d : SubsystemSensorData) (g : ℕ → ℚ) (i : ℕ) :
    Option (List ℚ) :=
  if name = "hydraulic" then
    some [max (d.hydraulic_pressure - (49 - (i : ℚ)) * 2 + (g (3 * i) - 0.5) * 10) 2500,
          max (d.hydraulic_flow - (49 - (i : ℚ)) * 0.1 + (g (3 * i + 1) - 0.5) * 0.5) 6,
          max (d.hydraulic_temp - (49 - (i : ℚ)) * 1 + (g (3 * i + 2) - 0.5) * 2) 70]
  else if name = "electrical" then
    some [max (d.electrical_voltage - (49 - (i : ℚ)) * 0.02 + (g (2 * i) - 0.5) * 0.1) 24,
          max (d.electrical_current - (49 - (i : ℚ)) * 0.2 + (g (2 * i + 1) - 0.5) * 0.5) 5]
  else if name = "control_surface" then
    some [max (d.control_surface_deflection - (49 - (i : ℚ)) * 0.1 + (g i - 0.5) * 0.5) (-10)]
  else if name = "cabin" then
    some [max (d.cabin_pressure - (49 - (i : ℚ)) * 0.001 + (g i - 0.5) * 0.01) 14.5]
  else if name = "altimeter" then
    some [d.altimeter_drift - (49 - (i : ℚ)) * 0.02 + (g i - 0.5) * 0.1]
  else
    none

/-- createSubsystemSequence (lines 232-302): build 50 timesteps, then return []
if fewer than 50 rows were pushed or any value is invalid.  (The source also
computes an unused stepDegradation value, omitted here.) -/
def createSubsystemSequence (name : String) (d : SubsystemSensorData) (g : ℕ → ℚ) :
    List (List ℚ) :=
  let sequence := (List.range 50).filterMap (subsystemRowOpt name d g)
  if sequence.length ≠ 50 then []
  else if sequence.any (fun row => row.any jsIsInvalid) then []
  else sequence

/-- The five subsystem names iterated by predictSubsystemRUL (lines 310-331). -/
def subsystemNames : List String :=
  ["hydraulic", "electrical", "control_surface", "cabin", "altimeter"]

/-- The Math.random() draws consumed by one subsystem iteration of
predictSubsystemRUL: u is the band draw of the fallback generator, v its
failure-probability roll, jitter the randomVariation (already scaled to the
interval from -1 to 1). -/
structure RandomDraws where
  u : ℚ
  v : ℚ
  jitter : ℚ
deriving DecidableEq

/-- Outcome of one remote call through the proxy, as seen by the client. -/
inductive RemoteOutcome (α : Type) where
  | ok (resp : α)
  | httpError
  | netError
deriving DecidableEq

/-- Band formula of the fallback generator (lines 423-461): the per-subsystem
synthetic RUL before the minimum-5 clamp, as an integer (Math.floor). -/
def fallbackBandRUL (name : String) (t : ℕ) (u : ℚ) : ℤ :=
  if t ≤ 10 then 120 - ⌊u * 5⌋
  else if t ≤ 20 then
    let p : ℚ := ((t : ℚ) - 10) / 10
    if name = "hydraulic" then ⌊120 - p * 45 - u * 10⌋
    else if name = "electrical" then ⌊120 - p * 30 - u * 8⌋
    else if name = "control_surface" then ⌊120 - p * 40 - u * 15⌋
    else if name = "cabin" then ⌊120 - p * 20 - u * 5⌋
    else ⌊120 - p * 35 - u * 10⌋
  else
    let c : ℚ := min (((t : ℚ) - 20) / 25) 1
    if name = "hydraulic" then ⌊75 - c * 50 - u * 15⌋
    else if name = "electrical" then ⌊90 - c * 45 - u * 12⌋
    else if name = "control_surface" then ⌊80 - c * 60 - u * 10⌋
    else if name = "cabin" then ⌊100 - c * 30 - u * 8⌋
    else ⌊85 - c * 50 - u * 12⌋

/-- currentRul of the fallback path (lines 463-496): the banded value clamped
to at least 5 for the five known subsystems, or the switch default 100. -/
def fallbackCurrentRUL (name : String) (t : ℕ) (u : ℚ) : ℚ :=
  if name ∈ subsystemNames then max 5 ((fallbackBandRUL name t u : ℚ)) else 100

/-- currentFailure of the fallback path (lines 441-460): the per-subsystem
failure-probability roll, with v the Math.random() draw. -/
def fallbackFailure (name : String) (t : ℕ) (v : ℚ) : Bool :=
  if t ≤ 10 then false
  else if t ≤ 20 then
    let p : ℚ := ((t : ℚ) - 10) / 10
    if name = "hydraulic" then decide (p > 0.7 ∧ v < 0.1)
    else if name = "control_surface" then decide (p > 0.8 ∧ v < 0.05)
    else false
  else
    let c : ℚ := min (((t : ℚ) - 20) / 25) 1
    if name = "hydraulic" then decide (c > 0.3 ∧ v < 0.15 + c * 0.2)
    else if name = "electrical" then decide (c > 0.5 ∧ v < 0.1 + c * 0.15)
    else if name = "control_surface" then decide (c > 0.4 ∧ v < 0.12 + c * 0.25)
    else if name = "cabin" then decide (c > 0.7 ∧ v < 0.05 + c * 0.08)
    else if name = "altimeter" then decide (c > 0.6 ∧ v < 0.08 + c * 0.12)
    else false

/-- The prediction pushed by the fallback generator when the proxy call returns
a non-success status (lines 413-543). -/
def fallbackPrediction (name : String) (t : ℕ) (dr : RandomDraws) : SubsystemPrediction :=
  let currentRul := fallbackCurrentRUL name t dr.u
  let currentFailure := fallbackFailure name t dr.v
  let risk :=
    if currentFailure = true ∨ currentRul < 25 then Risk.danger
    else if currentRul < 60 then Risk.warning
    else Risk.safe
  { subsystem := name, rul := currentRul, risk_level := risk, status := statusOf risk,
    cycle := t }

/-- currentFailure of the catch-branch fallback (lines 545-585), which uses a
single roll formula for all subsystems. -/
def catchFailure (t : ℕ) (v : ℚ) : Bool :=
  if t ≤ 10 then false
  else if t ≤ 20 then decide (((t : ℚ) - 10) / 10 > 0.7 ∧ v < 0.05)
  else
    let c : ℚ := min (((t : ℚ) - 20) / 25) 1
    decide (c > 0.4 ∧ v < 0.1 + c * 0.15)

/-- The prediction pushed by the catch branch when the fetch itself throws
(lines 545-585); its band formulas agree with the fallback generator and the
ternary chain ends at the altimeter formula for any other name. -/
def catchPrediction (name : String) (t : ℕ) (dr : RandomDraws) : SubsystemPrediction :=
  let currentRul := max 5 ((fallbackBandRUL name t dr.u : ℚ))
  let currentFailure := catchFailure t dr.v
  let risk :=
    if currentFailure = true ∨ currentRul < 25 then Risk.danger
    else if currentRul < 60 then Risk.warning
    else Risk.safe
  { subsystem := name, rul := currentRul, risk_level := risk, status := statusOf risk,
    cycle := t }

/-- Which path one subsystem iteration of predictSubsystemRUL took. -/
inductive PredictionPath where
  | skipped
  | success (p : SubsystemPrediction)
  | fallback (p : SubsystemPrediction)
  | catchFallback (p : SubsystemPrediction)
deriving DecidableEq

/-- The prediction (if any) contributed by a path. -/
def pathResult : PredictionPath → Option SubsystemPrediction
  | PredictionPath.skipped => none
  | PredictionPath.success p => some p
  | PredictionPath.fallback p => some p
  | PredictionPath.catchFallback p => some p

/-- One iteration of the subsystem loop of predictSubsystemRUL (lines 336-586):
an empty sequence skips the remote call, a successful response goes through
extraction and normalization, a failed response through the fallback
generator, a thrown fetch through the catch branch. -/
def predictOneSubsystem (name : String) (seq : List (List ℚ))
    (outcome : RemoteOutcome SubsystemResponse) (t : ℕ) (dr : RandomDraws) :
    PredictionPath :=
  if seq.isEmpty = true then PredictionPath.skipped
  else
    match outcome with
    | RemoteOutcome.ok resp => PredictionPath.success (successPrediction name resp t dr.jitter)
    | RemoteOutcome.httpError => PredictionPath.fallback (fallbackPrediction name t dr)
    | RemoteOutcome.netError => PredictionPath.catchFallback (catchPrediction name t dr)

/-- predictSubsystemRUL (lines 305-605): the list of predictions accumulated
over the five subsystems and stored into state. -/
def predictSubsystemRUL (t : ℕ) (envS : String → RemoteOutcome SubsystemResponse)
    (d : SubsystemSensorData) (g : ℕ → ℚ) (dr : String → RandomDraws) :
    List SubsystemPrediction :=
  subsystemNames.filterMap
    (fun n => pathResult (predictOneSubsystem n (createSubsystemSequence n d g) (envS n) t (dr n)))

/-- The simulation-related component state of PredictionPanel.  loading, error,
connection and sensor states are not modelled; no claim mentions them.
lastRUL is carried because the alert-level effect reads and writes it (and the
stop button does NOT reset it). -/
structure SimState where
  isSimulating : Bool
  isPaused : Bool
  simulationTime : ℕ
  currentSpeed : ℚ
  alertLevel : Risk
  enginePrediction : Option ℚ
  subsystemPredictions : List SubsystemPrediction
  lastRUL : Option ℚ
deriving DecidableEq

/-- Speed computed inside the tick (lines 672-679) as a function of the new
time. -/
def speedAt (t : ℕ) : ℚ :=
  if t ≤ 45 then min 175 ((t : ℚ) / 45 * 175) else 175

/-- The alert-level effect (lines 608-644): runs only when an engine prediction
exists and the simulation is running; the alert level is stored only when a
previous RUL was recorded and the level changed; lastRUL is then updated. -/
def applyAlertEffect (s : SimState) : SimState :=
  match s.enginePrediction with
  | none => s
  | some currentRUL =>
    if s.isSimulating = true then
      let newAlertLevel := computeAlertLevel currentRUL s.subsystemPredictions
      if s.lastRUL ≠ none ∧ newAlertLevel ≠ s.alertLevel then
        { s with alertLevel := newAlertLevel, lastRUL := some currentRUL }
      else
        { s with lastRUL := some currentRUL }
    else s

/-- Effect of handleEnginePrediction (lines 716-792) on the stored engine
prediction: a successful proxy response stores the extracted value, any
failure leaves the previous prediction in place (only the error banner is
set). -/
def handleEngineStep (outcome : RemoteOutcome EngineResponse) (cur : Option ℚ) : Option ℚ :=
  match outcome with
  | RemoteOutcome.ok resp => some (extractEngineRaw resp)
  | RemoteOutcome.httpError => cur
  | RemoteOutcome.netError => cur

/-- One firing of the simulation interval (lines 664-714).  envE and envS give
the outcome of the remote calls at each time, gArr the sequence-builder draws
and draws the prediction-loop draws.  When newTime exceeds 50 the net effect
of the queued state updates is the cleared Idle state. -/
def simTick (envE : ℕ → RemoteOutcome EngineResponse)
    (envS : ℕ → String → RemoteOutcome SubsystemResponse)
    (d : SubsystemSensorData) (gArr : ℕ → ℕ → ℚ) (draws : ℕ → String → RandomDraws)
    (s : SimState) : SimState :=
  if s.isSimulating = true ∧ s.isPaused = false then
    let newTime := s.simulationTime + 1
    if newTime ≤ 50 then
      if newTime % 3 = 0 then
        applyAlertEffect
          { s with simulationTime := newTime, currentSpeed := speedAt newTime,
                   enginePrediction := handleEngineStep (envE newTime) s.enginePrediction,
                   subsystemPredictions :=
                     predictSubsystemRUL newTime (envS newTime) d (gArr newTime) (draws newTime) }
      else
        { s with simulationTime := newTime, currentSpeed := speedAt newTime }
    else
      { s with isSimulating := false, isPaused := false, simulationTime := 0,
               currentSpeed := 0, alertLevel := Risk.safe, enginePrediction := none,
               subsystemPredictions := [] }
  else s

/-- The stop branch of the start/stop button onClick (lines 1026-1035, 1039):
reset everything and leave the simulating flag false.  lastRUL is not reset
by the source. -/
def stopSimulation (s : SimState) : SimState :=
  { s with isSimulating := false, isPaused := false, simulationTime := 0,
           currentSpeed := 0, alertLevel := Risk.safe, enginePrediction := none,
           subsystemPredictions := [] }

/-- The start branch of the same onClick (lines 1018-1025, 1037). -/
def startSimulation (s : SimState) : SimState :=
  { s with isSimulating := true, isPaused := false, simulationTime := 0,
           currentSpeed := 0, alertLevel := Risk.safe, enginePrediction := none,
           subsystemPredictions := [] }

/-- State after pressing Start on a freshly mounted panel. -/
def startState : SimState :=
  { isSimulating := true, isPaused := false, simulationTime := 0, currentSpeed := 0,
    alertLevel := Risk.safe, enginePrediction := none, subsystemPredictions := [],
    lastRUL := none }

/-- The cleared Idle state reached when the simulation completes. -/
def idleState : SimState :=
  { isSimulating := false, isPaused := false, simulationTime := 0, currentSpeed := 0,
    alertLevel := Risk.safe, enginePrediction := none, subsystemPredictions := [],
    lastRUL := none }

/-- Environment in which every subsystem proxy call returns a failure status. -/
def allFailSub : ℕ → String → RemoteOutcome SubsystemResponse :=
  fun _ _ => RemoteOutcome.httpError

/-- Environment in which every engine proxy call fails. -/
def allFailEngine : ℕ → RemoteOutcome EngineResponse :=
  fun _ => RemoteOutcome.netError

/-- The run of scenario A: start, then iterate the tick with every remote call
failing. -/
def scenarioRun (d : SubsystemSensorData) (gArr : ℕ → ℕ → ℚ)
    (draws : ℕ → String → RandomDraws) (k : ℕ) : SimState :=
  (simTick allFailEngine allFailSub d gArr draws)^[k] startState

/-- The fallback predictions emitted at time t with per-subsystem draws dr. -/
def fallbackList (t : ℕ) (dr : String → RandomDraws) : List SubsystemPrediction :=
  subsystemNames.map (fun n => fallbackPrediction n t (dr n))

/-- The subsystem predictions held in state after k ticks of scenario A: empty
until the first multiple of 3, then the fallback list of the last prediction
tick. -/
def predsAt (draws : ℕ → String → RandomDraws) : ℕ → List SubsystemPrediction
  | 0 => []
  | k + 1 => if (k + 1) % 3 = 0 then fallbackList (k + 1) (draws (k + 1)) else predsAt draws k

/-- Shape of the sequence field of a proxy request body: an array of a given
length, or a non-array value that is truthy or falsy in JavaScript. -/
inductive SeqShape where
  | arr (length : ℕ)
  | truthyNonArray
  | falsyNonArray
deriving DecidableEq

/-- A parsed proxy request body (route.ts line 20); absent fields are none. -/
structure ProxyReq where
  subsystem : Option String
  sequence : Option SeqShape
deriving DecidableEq

/-- Behaviour of the remote LSTM service for one proxy call. -/
inductive Upstream where
  | respond (status : ℕ) (body : String)
  | netFail
deriving DecidableEq

/-- Observable result of the proxy route: HTTP status, response body, and
whether the remote service was contacted. -/
structure ProxyResponse where
  status : ℕ
  body : String
  contactedRemote : Bool
deriving DecidableEq

/-- JavaScript truthiness of the subsystem field: absent or the empty string
is falsy. -/
def jsTruthyStr : Option String → Bool
  | none => false
  | some s => decide (s ≠ "")

/-- JavaScript truthiness of the sequence field: any array (even empty) is
truthy. -/
def jsTruthySeq : Option SeqShape → Bool
  | none => false
  | some (SeqShape.arr _) => true
  | some SeqShape.truthyNonArray => true
  | some SeqShape.falsyNonArray => false

/-- Array.isArray(sequence) together with the exact length check. -/
def isArrayOfLength (s : Option SeqShape) (n : ℕ) : Bool :=
  match s with
  | some (SeqShape.arr m) => decide (m = n)
  | _ => false

/-- Error body for a missing subsystem or sequence (route.ts line 26). -/
def errMissing : String := "Missing subsystem or sequence"

/-- Error body for a bad engine feature vector (route.ts line 37). -/
def errEngineLen : String := "Engine prediction requires exactly 24 features"

/-- Error body for a bad subsystem sequence (route.ts line 46). -/
def errSeqLen : String := "Sequence length must be 50"

/-- Error body of the catch-all handler (route.ts line 86). -/
def errUpstream : String := "Failed to get prediction"

/-- Forwarding to the remote service (route.ts lines 58-96): an ok status
(200-299) relays the body with HTTP 200, anything else throws into the catch
handler which answers 500. -/
def relayUpstream (u : Upstream) : ProxyResponse :=
  match u with
  | Upstream.respond st b =>
      if 200 ≤ st ∧ st ≤ 299 then { status := 200, body := b, contactedRemote := true }
      else { status := 500, body := errUpstream, contactedRemote := true }
  | Upstream.netFail => { status := 500, body := errUpstream, contactedRemote := true }

/-- The POST handler of /api/predict (route.ts lines 17-97).  A request whose
JSON body fails to parse lands in the catch handler (500). -/
def POST (req : Option ProxyReq) (u : Upstream) : ProxyResponse :=
  match req with
  | none => { status := 500, body := errUpstream, contactedRemote := false }
  | some r =>
    if jsTruthyStr r.subsystem = false ∨ jsTruthySeq r.sequence = false then
      { status := 400, body := errMissing, contactedRemote := false }
    else if r.subsystem = some ("engine") then
      if isArrayOfLength r.sequence 24 = false then
        { status := 400, body := errEngineLen, contactedRemote := false }
      else relayUpstream u
    else
      if isArrayOfLength r.sequence 50 = false then
        { status := 400, body := errSeqLen, contactedRemote := false }
      else relayUpstream u

/-- The engine response of end-to-end scenario B: the remote call answers with
prediction 15 and no predicted_engine_output key. -/
def scenarioBResponse : EngineResponse :=
  { predicted_engine_output := none, prediction := some 15 }

/-- A request body that passes the proxy's input validation: both fields
truthy, and the sequence an array of exactly 24 entries for the engine,
exactly 50 for every other subsystem. -/
def validProxyReq (r : ProxyReq) : Prop :=
  jsTruthyStr r.subsystem = true ∧ jsTruthySeq r.sequence = true ∧
    (if r.subsystem = some ("engine") then isArrayOfLength r.sequence 24 = true
     else isArrayOfLength r.sequence 50 = true)

/-! Helper lemmas shared by the claim theorems. -/

/-- One fold step of the alert-level effect is exactly taking the worst of the
accumulator and the engine-threshold classification of the subsystem RUL. -/
theorem alertStep_eq_riskMax (a : Risk) (p : SubsystemPrediction) :
    alertStep a p = riskMax a (classifyEngine p.rul) := by
  rcases a <;> by_cases h30 : p.rul < 30 <;> by_cases h80 : p.rul < 80 <;>
    simp [alertStep, classifyEngine, riskMax, Risk.severity, h30, h80]

/-- Folding the alert step agrees with folding the engine-threshold maximum. -/
theorem foldl_alertStep_eq (preds : List SubsystemPrediction) :
    ∀ a : Risk, preds.foldl alertStep a =
      preds.foldl (fun b p => riskMax b (classifyEngine p.rul)) a := by
  induction preds with
  | nil => intro a; rfl
  | cons p l ih =>
      intro a
      simp only [List.foldl_cons, alertStep_eq_riskMax]
      exact ih _

/-- Once the alert level is danger the subsystem fold keeps it at danger. -/
theorem foldl_alertStep_danger (preds : List SubsystemPrediction) :
    preds.foldl alertStep Risk.danger = Risk.danger := by
  induction preds with
  | nil => rfl
  | cons p l ih =>
      have h : alertStep Risk.danger p = Risk.danger := by simp [alertStep]
      simp only [List.foldl_cons, h, ih]

/-- The alert-level effect neither moves simulation time nor the predictions,
the running flags or the speed; it only touches alertLevel and lastRUL. -/
theorem applyAlertEffect_frame (s : SimState) :
    (applyAlertEffect s).isSimulating = s.isSimulating ∧
    (applyAlertEffect s).isPaused = s.isPaused ∧
    (applyAlertEffect s).simulationTime = s.simulationTime ∧
    (applyAlertEffect s).currentSpeed = s.currentSpeed ∧
    (applyAlertEffect s).enginePrediction = s.enginePrediction ∧
    (applyAlertEffect s).subsystemPredictions = s.subsystemPredictions := by
  unfold applyAlertEffect
  rcases h : s.enginePrediction with _ | e <;> simp [h] <;> split_ifs <;> simp [h]

/-- Without an engine prediction the alert-level effect does nothing. -/
theorem applyAlertEffect_none (s : SimState) (h : s.enginePrediction = none) :
    applyAlertEffect s = s := by
  unfold applyAlertEffect
  rw [h]

/-! Claim C2: stop is idempotent. -/

/-- Claim C2: calling the stop branch twice in a row from a non-Idle state
leaves the state identical to calling it once, namely the Idle state with
time 0, speed 0, risk safe and both prediction stores cleared. -/
theorem stop_idempotent (s : SimState) (h : s.isSimulating = true) :
    stopSimulation (stopSimulation s) = stopSimulation s ∧
    (stopSimulation s).isSimulating = false ∧
    (stopSimulation s).isPaused = false ∧
    (stopSimulation s).simulationTime = 0 ∧
    (stopSimulation s).currentSpeed = 0 ∧
    (stopSimulation s).alertLevel = Risk.safe ∧
    (stopSimulation s).enginePrediction = none ∧
    (stopSimulation s).subsystemPredictions = [] := by
  refine ⟨rfl, rfl, rfl, rfl, rfl, rfl, rfl, rfl⟩

/-- Witness for C2 at a concrete running state. -/
theorem stop_idempotent_witness :
    stopSimulation (stopSimulation
        { isSimulating := true, isPaused := false, simulationTime := 20, currentSpeed := 77,
          alertLevel := Risk.warning, enginePrediction := some 50,
          subsystemPredictions := [], lastRUL := some 50 }) =
      stopSimulation
        { isSimulating := true, isPaused := false, simulationTime := 20, currentSpeed := 77,
          alertLevel := Risk.warning, enginePrediction := some 50,
          subsystemPredictions := [], lastRUL := some 50 } :=
  (stop_idempotent
    { isSimulating := true, isPaused := false, simulationTime := 20, currentSpeed := 77,
      alertLevel := Risk.warning, enginePrediction := some 50,
      subsystemPredictions := [], lastRUL := some 50 } rfl).1

/-! Claim C3: the two risk classifiers are total functions with the fixed
thresholds 25/60 (subsystem) and 30/80 (engine). -/

/-- Claim C3: risk classification is a total function of the RUL; a subsystem
prediction is danger exactly below 25, warning exactly on [25,60), safe
exactly from 60 on; the engine is danger exactly below 30, warning exactly on
[30,80), safe exactly from 80 on; the two scales differ (witnessed at 27 and
at 70). -/
theorem risk_classification_thresholds (r : ℚ) :
    (classifySubsystem r = Risk.danger ↔ r < 25) ∧
    (classifySubsystem r = Risk.warning ↔ 25 ≤ r ∧ r < 60) ∧
    (classifySubsystem r = Risk.safe ↔ 60 ≤ r) ∧
    (classifyEngine r = Risk.danger ↔ r < 30) ∧
    (classifyEngine r = Risk.warning ↔ 30 ≤ r ∧ r < 80) ∧
    (classifyEngine r = Risk.safe ↔ 80 ≤ r) ∧
    classifySubsystem 27 ≠ classifyEngine 27 ∧
    classifySubsystem 70 ≠ classifyEngine 70 := by
  refine ⟨?_, ?_, ?_, ?_, ?_, ?_, by decide, by decide⟩ <;>
    · simp only [classifySubsystem, classifyEngine]
      split_ifs <;> simp <;> intros <;>
        first | linarith | exact ⟨by linarith, by linarith⟩

/-! Claim C5: normalization of a negative raw prediction. -/

/-- Claim C5: for a negative raw prediction r, any time t and any jitter
strictly between -1 and 1, the normalized RUL equals
max 1 (min 20 (abs r + jitter - 5 * min (t/50) 1)) and in particular lies in
the interval [1, 20]. -/
theorem negative_raw_normalization (r j : ℚ) (t : ℕ)
    (hr : r < 0) (hj1 : -1 < j) (hj2 : j < 1) :
    normalizeRUL r t j = max 1 (min 20 (|r| + j - min ((t : ℚ) / 50) 1 * 5)) ∧
    1 ≤ normalizeRUL r t j ∧ normalizeRUL r t j ≤ 20 := by
  have hbranch : normalizeRUL r t j =
      max 1 (min 20 (|r| + j - min ((t : ℚ) / 50) 1 * 5)) := by
    simp only [normalizeRUL]
    rw [if_pos hr, ← max_assoc, max_self]
  refine ⟨hbranch, ?_, ?_⟩
  · rw [hbranch]; exact le_max_left _ _
  · rw [hbranch]
    exact max_le (by norm_num) (min_le_left _ _)

/-- Witness for C5 at r = -5, t = 30, jitter = 0. -/
theorem negative_raw_normalization_witness :
    normalizeRUL (-5) 30 0 = max 1 (min 20 (|(-5 : ℚ)| + 0 - min ((30 : ℚ) / 50) 1 * 5)) :=
  (negative_raw_normalization (-5) 0 30 (by norm_num) (by norm_num) (by norm_num)).1

/-! Claim C7: the takeoff speed profile. -/

/-- Claim C7: for every tick time t with 1 ≤ t ≤ 45 the computed speed equals
(t/45)*175, for every t beyond 45 it equals 175, and the profile is
monotonically non-decreasing. -/
theorem takeoff_speed_profile (t u : ℕ) (h1 : 1 ≤ t) (h2 : t ≤ 45) (h3 : 45 < u) :
    speedAt t = (t : ℚ) / 45 * 175 ∧
    speedAt u = 175 ∧
    (∀ a b : ℕ, a ≤ b → speedAt a ≤ speedAt b) := by
  refine ⟨?_, ?_, ?_⟩
  · unfold speedAt
    rw [if_pos h2]
    have hq : (t : ℚ) ≤ 45 := by exact_mod_cast h2
    have hx : (t : ℚ) / 45 * 175 ≤ 175 := by
      have : (t : ℚ) / 45 ≤ 1 := by
        rw [div_le_one (by norm_num)]
        exact hq
      nlinarith
    exact min_eq_right hx
  · unfold speedAt
    rw [if_neg (by omega)]
  · intro a b hab
    unfold speedAt
    by_cases ha : a ≤ 45 <;> by_cases hb : b ≤ 45
    · rw [if_pos ha, if_pos hb]
      have : (a : ℚ) / 45 * 175 ≤ (b : ℚ) / 45 * 175 := by
        have : (a : ℚ) ≤ (b : ℚ) := by exact_mod_cast hab
        nlinarith
      exact min_le_min le_rfl this
    · rw [if_pos ha, if_neg hb]
      exact min_le_left _ _
    · omega
    · rw [if_neg ha, if_neg hb]

/-- Witness for C7 at t = 9 and u = 46. -/
theorem takeoff_speed_profile_witness :
    speedAt 9 = (9 : ℚ) / 45 * 175 ∧ speedAt 46 = 175 :=
  ⟨(takeoff_speed_profile 9 46 (by norm_num) (by norm_num) (by norm_num)).1,
   (takeoff_speed_profile 9 46 (by norm_num) (by norm_num) (by norm_num)).2.1⟩

/-! Claim C10: a prediction key present with the value 0 behaves like an
absent key in both extraction chains. -/

/-- Claim C10: in the subsystem and engine extraction chains a known key
holding exactly 0 is indistinguishable from an absent key, and a genuine zero
under the preferred key therefore falls through: with predicted_RUL = 0 and
prediction = r (r nonzero) the subsystem raw value is r, and with
predicted_engine_output = 0 and prediction = r the engine raw value is r. -/
theorem zero_key_falls_through (q : SubsystemResponse) (e : EngineResponse) (r : ℚ)
    (hr : r ≠ 0) :
    extractRawRUL { q with predicted_RUL := some 0 } =
      extractRawRUL { q with predicted_RUL := none } ∧
    extractRawRUL { q with predicted_named_output := some 0 } =
      extractRawRUL { q with predicted_named_output := none } ∧
    extractRawRUL { q with prediction := some 0 } =
      extractRawRUL { q with prediction := none } ∧
    extractRawRUL { q with rul := some 0 } =
      extractRawRUL { q with rul := none } ∧
    extractEngineRaw { e with predicted_engine_output := some 0 } =
      extractEngineRaw { e with predicted_engine_output := none } ∧
    extractEngineRaw { e with prediction := some 0 } =
      extractEngineRaw { e with prediction := none } ∧
    extractRawRUL { predicted_RUL := some 0, predicted_named_output := none,
                    prediction := some r, rul := none } = r ∧
    extractEngineRaw { predicted_engine_output := some 0, prediction := some r } = r := by
  refine ⟨?_, ?_, ?_, ?_, ?_, ?_, ?_, ?_⟩ <;>
    simp [extractRawRUL, extractEngineRaw, jsOrQ, hr]

/-- Witness for C10 at r = 15 with empty remaining keys. -/
theorem zero_key_falls_through_witness :
    extractRawRUL { predicted_RUL := some 0, predicted_named_output := none,
                    prediction := some 15, rul := none } = 15 :=
  (zero_key_falls_through
    { predicted_RUL := none, predicted_named_output := none, prediction := none, rul := none }
    { predicted_engine_output := none, prediction := none } 15 (by norm_num)).2.2.2.2.2.2.1

/-! Claim C1: overall risk versus the subsystem classifications. -/

/-- Counterexample to claim C1 as stated: with engine RUL 100 (safe) and a
single hydraulic prediction of RUL 70 — classified safe by the subsystem
classifier, since 70 is at least 60 — the worst tier among the engine's and
the subsystems' classifications is safe, yet the alert-level effect computes
warning, because it re-classifies the subsystem RUL against the engine
thresholds (70 < 80). -/
theorem overall_risk_counterexample :
    classifySubsystem 70 = Risk.safe ∧
    computeAlertLevel 100
      [{ subsystem := "hydraulic", rul := 70, risk_level := Risk.safe,
         status := statusOf Risk.safe, cycle := 30 }] = Risk.warning ∧
    worstClassifiedTier 100
      [{ subsystem := "hydraulic", rul := 70, risk_level := Risk.safe,
         status := statusOf Risk.safe, cycle := 30 }] = Risk.safe ∧
    Risk.warning ≠ Risk.safe := by
  refine ⟨by decide, by decide, by decide, by decide⟩

/-- Claim C1 (amended): the overall risk computed by the alert-level effect
equals the worst tier obtained by applying the ENGINE thresholds (danger
below 30, warning below 80) to the engine RUL and to every subsystem RUL —
the subsystems' stored 25/60 classifications are not consulted.  Scenario B
survives: when the remote engine call returns prediction 15 the extracted
engine value is 15, it classifies as danger, and while simulating with a
previously recorded RUL the effect leaves the alert level at danger
regardless of the subsystem results. -/
theorem overall_risk_engine_thresholds (e : ℚ) (preds : List SubsystemPrediction)
    (s : SimState) (x : ℚ) (hsim : s.isSimulating = true) (hlast : s.lastRUL = some x) :
    computeAlertLevel e preds = worstEngineThresholdTier e preds ∧
    extractEngineRaw scenarioBResponse = 15 ∧
    classifyEngine 15 = Risk.danger ∧
    (applyAlertEffect
        { s with enginePrediction := some (extractEngineRaw scenarioBResponse) }).alertLevel =
      Risk.danger := by
  have he : extractEngineRaw scenarioBResponse = (15 : ℚ) := by decide
  have hn : ∀ l : List SubsystemPrediction, computeAlertLevel 15 l = Risk.danger := by
    intro l
    simp only [computeAlertLevel]
    rw [if_pos (by norm_num : (15 : ℚ) < 30)]
    exact foldl_alertStep_danger l
  refine ⟨foldl_alertStep_eq preds (classifyEngine e), he, by decide, ?_⟩
  rw [he]
  by_cases hA : s.alertLevel = Risk.danger
  · simp [applyAlertEffect, hsim, hlast, hn, hA]
  · have hA' : ¬(Risk.danger = s.alertLevel) := fun h => hA h.symm
    simp [applyAlertEffect, hsim, hlast, hn, hA, hA']

/-- Witness for the amended C1 at a concrete running state. -/
theorem overall_risk_engine_thresholds_witness :
    (applyAlertEffect
        { isSimulating := true, isPaused := false, simulationTime := 30, currentSpeed := 175,
          alertLevel := Risk.safe,
          enginePrediction := some (extractEngineRaw scenarioBResponse),
          subsystemPredictions := [], lastRUL := some 100 }).alertLevel = Risk.danger :=
  (overall_risk_engine_thresholds 15 []
    { isSimulating := true, isPaused := false, simulationTime := 30, currentSpeed := 175,
      alertLevel := Risk.safe, enginePrediction := none,
      subsystemPredictions := [], lastRUL := some 100 } 100 rfl rfl).2.2.2

/-! Claim C4: a successful response with none of the known keys. -/

/-- Claim C4: a successful upstream response in which all four known
prediction keys are absent is treated as the raw value 0 and runs through the
same normalization pipeline used for present values; the loop takes the
success path, not the fallback-generator path. -/
theorem malformed_response_is_raw_zero (name : String) (seq : List (List ℚ)) (t : ℕ)
    (dr : RandomDraws) (resp : SubsystemResponse) (hseq : seq ≠ [])
    (h1 : resp.predicted_RUL = none) (h2 : resp.predicted_named_output = none)
    (h3 : resp.prediction = none) (h4 : resp.rul = none) :
    extractRawRUL resp = 0 ∧
    predictOneSubsystem name seq (RemoteOutcome.ok resp) t dr =
      PredictionPath.success (successPrediction name resp t dr.jitter) ∧
    (successPrediction name resp t dr.jitter).rul =
      roundTenth (normalizeRUL 0 t dr.jitter) ∧
    (successPrediction name resp t dr.jitter).risk_level =
      classifySubsystem (normalizeRUL 0 t dr.jitter) := by
  have hex : extractRawRUL resp = 0 := by
    simp [extractRawRUL, jsOrQ, h1, h2, h3, h4]
  refine ⟨hex, ?_, ?_, ?_⟩
  · simp [predictOneSubsystem, hseq]
  · simp [successPrediction, hex]
  · simp [successPrediction, hex]

/-- Witness for C4 at a concrete all-keys-absent response. -/
theorem malformed_response_is_raw_zero_witness :
    predictOneSubsystem ("hydraulic") [[1]] (RemoteOutcome.ok
        { predicted_RUL := none, predicted_named_output := none,
          prediction := none, rul := none }) 30 { u := 0, v := 0, jitter := 0 } =
      PredictionPath.success (successPrediction ("hydraulic")
        { predicted_RUL := none, predicted_named_output := none,
          prediction := none, rul := none } 30 (0 : ℚ)) :=
  (malformed_response_is_raw_zero ("hydraulic") [[1]] 30 { u := 0, v := 0, jitter := 0 }
    { predicted_RUL := none, predicted_named_output := none,
      prediction := none, rul := none }
    (by simp) rfl rfl rfl rfl).2.1

/-! Claim C8: the sequence builder returns all 50 rows or nothing. -/

/-- No row of any list trips the (constantly false) invalid-value check. -/
theorem any_jsIsInvalid_false (l : List (List ℚ)) :
    l.any (fun row => row.any jsIsInvalid) = false := by
  have hrow : ∀ r : List ℚ, r.any jsIsInvalid = false := by
    intro r
    induction r with
    | nil => rfl
    | cons x r ih => simp [List.any_cons, ih, jsIsInvalid]
  induction l with
  | nil => rfl
  | cons a l ih => simp [List.any_cons, ih, hrow]

/-- For a name outside the five known subsystems the builder pushes no row and
hence returns the empty sequence. -/
theorem createSeq_unknown (name : String) (d : SubsystemSensorData) (g : ℕ → ℚ)
    (h1 : name ≠ "hydraulic") (h2 : name ≠ "electrical") (h3 : name ≠ "control_surface")
    (h4 : name ≠ "cabin") (h5 : name ≠ "altimeter") :
    createSubsystemSequence name d g = [] := by
  have hseq : (List.range 50).filterMap (subsystemRowOpt name d g) = [] := by
    rw [List.filterMap_eq_nil]
    intro a _
    simp [subsystemRowOpt, h1, h2, h3, h4, h5]
  simp [createSubsystemSequence, hseq]

/-- Claim C8: for every subsystem name and every sensor state the sequence
builder returns either exactly 50 rows or the empty list, the returned
sequence never contains an invalid (non-finite) value, and whenever the empty
list is returned the prediction loop skips the remote call for that subsystem
this cycle. -/
theorem sequence_builder_all_or_nothing (name : String) (d : SubsystemSensorData)
    (g : ℕ → ℚ) :
    ((createSubsystemSequence name d g).length = 50 ∨
      createSubsystemSequence name d g = []) ∧
    (createSubsystemSequence name d g).any (fun row => row.any jsIsInvalid) = false ∧
    (∀ (out : RemoteOutcome SubsystemResponse) (t : ℕ) (dr : RandomDraws),
      createSubsystemSequence name d g = [] →
      predictOneSubsystem name (createSubsystemSequence name d g) out t dr =
        PredictionPath.skipped) := by
  refine ⟨?_, any_jsIsInvalid_false _, ?_⟩
  · by_cases h1 : name = "hydraulic"
    · subst h1; left; rfl
    by_cases h2 : name = "electrical"
    · subst h2; left; rfl
    by_cases h3 : name = "control_surface"
    · subst h3; left; rfl
    by_cases h4 : name = "cabin"
    · subst h4; left; rfl
    by_cases h5 : name = "altimeter"
    · subst h5; left; rfl
    right
    exact createSeq_unknown name d g h1 h2 h3 h4 h5
  · intro out t dr hnil
    rw [hnil]
    rfl

/-- Witness for C8: an unknown subsystem name yields the empty sequence and
the loop skips the call. -/
theorem sequence_builder_all_or_nothing_witness :
    predictOneSubsystem ("unknown")
        (createSubsystemSequence ("unknown") initialSensors (fun _ => 0))
        RemoteOutcome.httpError 3 { u := 0, v := 0, jitter := 0 } =
      PredictionPath.skipped :=
  (sequence_builder_all_or_nothing ("unknown") initialSensors (fun _ => 0)).2.2
    RemoteOutcome.httpError 3 { u := 0, v := 0, jitter := 0 } (by rfl)

/-! Claim C9: the proxy route. -/

/-- Counterexample to claim C9 as stated: a valid engine request forwarded to
an upstream that answers 201 — a non-200 response, hence an upstream failure
in the claim's sense — is not answered with HTTP 500: the proxy treats every
2xx status as success and relays the body with its own status 200 (not the
upstream's 201). -/
theorem proxy_201_counterexample :
    POST (some { subsystem := some ("engine"), sequence := some (SeqShape.arr 24) })
        (Upstream.respond 201 ("relayed-body")) =
      { status := 200, body := "relayed-body", contactedRemote := true } ∧
    (201 : ℕ) ≠ 200 ∧ (200 : ℕ) ≠ 500 := by
  refine ⟨by decide, by decide, by decide⟩

/-- Claim C9 (amended): the proxy returns HTTP 400 without contacting the
remote service whenever the request violates the input contract (subsystem or
sequence missing/falsy; engine sequence not an array of length exactly 24;
any other subsystem's sequence not an array of length exactly 50); on an
upstream response with an OK status (200-299) it relays the upstream body
with HTTP 200; and it returns HTTP 500 when the upstream status is outside
200-299 or the call fails on the network. -/
theorem proxy_contract (r : ProxyReq) (u : Upstream) (st : ℕ) (b : String) :
    (jsTruthyStr r.subsystem = false ∨ jsTruthySeq r.sequence = false →
      POST (some r) u = { status := 400, body := errMissing, contactedRemote := false }) ∧
    (jsTruthyStr r.subsystem = true → jsTruthySeq r.sequence = true →
      r.subsystem = some ("engine") → isArrayOfLength r.sequence 24 = false →
      POST (some r) u = { status := 400, body := errEngineLen, contactedRemote := false }) ∧
    (jsTruthyStr r.subsystem = true → jsTruthySeq r.sequence = true →
      r.subsystem ≠ some ("engine") → isArrayOfLength r.sequence 50 = false →
      POST (some r) u = { status := 400, body := errSeqLen, contactedRemote := false }) ∧
    (validProxyReq r → 200 ≤ st → st ≤ 299 →
      POST (some r) (Upstream.respond st b) =
        { status := 200, body := b, contactedRemote := true }) ∧
    (validProxyReq r → ¬(200 ≤ st ∧ st ≤ 299) →
      POST (some r) (Upstream.respond st b) =
        { status := 500, body := errUpstream, contactedRemote := true }) ∧
    (validProxyReq r →
      POST (some r) Upstream.netFail =
        { status := 500, body := errUpstream, contactedRemote := true }) := by
  refine ⟨?_, ?_, ?_, ?_, ?_, ?_⟩
  · intro h
    rcases h with h | h <;> simp [POST, h]
  · intro ht hs he hlen
    rw [he] at ht
    simp [POST, ht, hs, he, hlen]
  · intro ht hs he hlen
    simp [POST, ht, hs, he, hlen]
  · intro hv h1 h2
    obtain ⟨ht, hs, hif⟩ := hv
    by_cases he : r.subsystem = some ("engine")
    · rw [if_pos he] at hif
      rw [he] at ht
      simp [POST, relayUpstream, ht, hs, he, hif, h1, h2]
    · rw [if_neg he] at hif
      simp [POST, relayUpstream, ht, hs, he, hif, h1, h2]
  · intro hv hbad
    obtain ⟨ht, hs, hif⟩ := hv
    by_cases he : r.subsystem = some ("engine")
    · rw [if_pos he] at hif
      rw [he] at ht
      simp [POST, relayUpstream, ht, hs, he, hif, hbad]
    · rw [if_neg he] at hif
      simp [POST, relayUpstream, ht, hs, he, hif, hbad]
  · intro hv
    obtain ⟨ht, hs, hif⟩ := hv
    by_cases he : r.subsystem = some ("engine")
    · rw [if_pos he] at hif
      rw [he] at ht
      simp [POST, relayUpstream, ht, hs, he, hif]
    · rw [if_neg he] at hif
      simp [POST, relayUpstream, ht, hs, he, hif]

/-- Witness for the amended C9 covering every branch at concrete requests. -/
theorem proxy_contract_witness :
    POST (some { subsystem := none, sequence := some (SeqShape.arr 24) }) Upstream.netFail =
      { status := 400, body := errMissing, contactedRemote := false } ∧
    POST (some { subsystem := some ("engine"), sequence := some (SeqShape.arr 23) })
        Upstream.netFail =
      { status := 400, body := errEngineLen, contactedRemote := false } ∧
    POST (some { subsystem := some ("hydraulic"), sequence := some (SeqShape.arr 49) })
        Upstream.netFail =
      { status := 400, body := errSeqLen, contactedRemote := false } ∧
    POST (some { subsystem := some ("engine"), sequence := some (SeqShape.arr 24) })
        (Upstream.respond 200 ("ok-body")) =
      { status := 200, body := "ok-body", contactedRemote := true } ∧
    POST (some { subsystem := some ("hydraulic"), sequence := some (SeqShape.arr 50) })
        (Upstream.respond 404 ("not-found")) =
      { status := 500, body := errUpstream, contactedRemote := true } ∧
    POST (some { subsystem := some ("cabin"), sequence := some (SeqShape.arr 50) })
        Upstream.netFail =
      { status := 500, body := errUpstream, contactedRemote := true } := by
  refine ⟨?_, ?_, ?_, ?_, ?_, ?_⟩
  · exact (proxy_contract { subsystem := none, sequence := some (SeqShape.arr 24) }
      Upstream.netFail 0 ("")).1 (Or.inl (by decide))
  · exact (proxy_contract { subsystem := some ("engine"), sequence := some (SeqShape.arr 23) }
      Upstream.netFail 0 ("")).2.1 (by decide) (by decide) (by decide) (by decide)
  · exact (proxy_contract { subsystem := some ("hydraulic"), sequence := some (SeqShape.arr 49) }
      Upstream.netFail 0 ("")).2.2.1 (by decide) (by decide) (by decide) (by decide)
  · have hv : validProxyReq { subsystem := some ("engine"), sequence := some (SeqShape.arr 24) } := by
      unfold validProxyReq
      refine ⟨by decide, by decide, ?_⟩
      rw [if_pos (by decide)]
      decide
    exact (proxy_contract { subsystem := some ("engine"), sequence := some (SeqShape.arr 24) }
      Upstream.netFail 200 ("ok-body")).2.2.2.1 hv (by decide) (by decide)
  · have hv : validProxyReq { subsystem := some ("hydraulic"), sequence := some (SeqShape.arr 50) } := by
      unfold validProxyReq
      refine ⟨by decide, by decide, ?_⟩
      rw [if_neg (by decide)]
      decide
    exact (proxy_contract { subsystem := some ("hydraulic"), sequence := some (SeqShape.arr 50) }
      Upstream.netFail 404 ("not-found")).2.2.2.2.1 hv (by omega)
  · have hv : validProxyReq { subsystem := some ("cabin"), sequence := some (SeqShape.arr 50) } := by
      unfold validProxyReq
      refine ⟨by decide, by decide, ?_⟩
      rw [if_neg (by decide)]
      decide
    exact (proxy_contract { subsystem := some ("cabin"), sequence := some (SeqShape.arr 50) }
      Upstream.netFail 0 ("")).2.2.2.2.2 hv

/-! Claim C6: the simulation clock. -/

/-- A list of length 50 is not empty. -/
theorem length_50_ne_nil {l : List (List ℚ)} (h : l.length = 50) : l ≠ [] := by
  intro hnil
  rw [hnil] at h
  simp at h

/-- With every subsystem call failing, the prediction loop stores exactly the
five fallback predictions, one per subsystem. -/
theorem predictSubsystemRUL_allFail (t t0 : ℕ) (d : SubsystemSensorData) (g : ℕ → ℚ)
    (dr : String → RandomDraws) :
    predictSubsystemRUL t (allFailSub t0) d g dr = fallbackList t dr := by
  have hH : createSubsystemSequence ("hydraulic") d g ≠ [] := length_50_ne_nil rfl
  have hE : createSubsystemSequence ("electrical") d g ≠ [] := length_50_ne_nil rfl
  have hC : createSubsystemSequence ("control_surface") d g ≠ [] := length_50_ne_nil rfl
  have hCa : createSubsystemSequence ("cabin") d g ≠ [] := length_50_ne_nil rfl
  have hA : createSubsystemSequence ("altimeter") d g ≠ [] := length_50_ne_nil rfl
  simp [predictSubsystemRUL, subsystemNames, fallbackList, predictOneSubsystem, allFailSub,
        pathResult, hH, hE, hC, hCa, hA]

/-- Closed form of the scenario-A run for the first 50 ticks: still running and
unpaused, time equal to the tick count, speed on the takeoff profile, no
engine prediction (every engine call fails), safe alert level, and the
fallback predictions of the last prediction tick. -/
theorem scenarioRun_inv (d : SubsystemSensorData) (gArr : ℕ → ℕ → ℚ)
    (draws : ℕ → String → RandomDraws) :
    ∀ k : ℕ, k ≤ 50 →
      scenarioRun d gArr draws k =
        { isSimulating := true, isPaused := false, simulationTime := k,
          currentSpeed := speedAt k, alertLevel := Risk.safe, enginePrediction := none,
          subsystemPredictions := predsAt draws k, lastRUL := none } := by
  intro k
  induction k with
  | zero =>
      intro _
      show startState = _
      simp [startState, predsAt, speedAt]
  | succ k ih =>
      intro hk
      have hks : k ≤ 50 := by omega
      have hstep : scenarioRun d gArr draws (k + 1) =
          simTick allFailEngine allFailSub d gArr draws (scenarioRun d gArr draws k) := by
        simp [scenarioRun, Function.iterate_succ_apply']
      rw [hstep, ih hks]
      by_cases h3 : (k + 1) % 3 = 0
      · have hpred := predictSubsystemRUL_allFail (k + 1) (k + 1) d (gArr (k + 1)) (draws (k + 1))
        simp [simTick, hk, h3, handleEngineStep, allFailEngine, hpred,
              applyAlertEffect, predsAt]
      · simp [simTick, hk, h3, predsAt]

/-- Claim C6: a tick that would advance time past 50 forces the cleared Idle
state (time 0, speed 0, risk safe, both prediction stores emptied); while
running and unpaused every tick advances time by exactly 1; and for the run
started with every remote call failing, the state holds fallback-derived
predictions at every time 3, 6, ..., 48 and the 51st tick lands in the
cleared Idle state. -/
theorem simulation_clock_completion (envE : ℕ → RemoteOutcome EngineResponse)
    (envS : ℕ → String → RemoteOutcome SubsystemResponse) (d : SubsystemSensorData)
    (gArr : ℕ → ℕ → ℚ) (draws : ℕ → String → RandomDraws) :
    (∀ s : SimState, s.isSimulating = true → s.isPaused = false →
      50 < s.simulationTime + 1 →
      simTick envE envS d gArr draws s =
        { s with isSimulating := false, isPaused := false, simulationTime := 0,
                 currentSpeed := 0, alertLevel := Risk.safe, enginePrediction := none,
                 subsystemPredictions := [] }) ∧
    (∀ s : SimState, s.isSimulating = true → s.isPaused = false →
      s.simulationTime + 1 ≤ 50 →
      (simTick envE envS d gArr draws s).simulationTime = s.simulationTime + 1) ∧
    (∀ t : ℕ, 3 ≤ t → t ≤ 48 → t % 3 = 0 →
      (scenarioRun d gArr draws t).subsystemPredictions = fallbackList t (draws t)) ∧
    scenarioRun d gArr draws 51 = idleState := by
  refine ⟨?_, ?_, ?_, ?_⟩
  · intro s h1 h2 h3
    have hn : ¬(s.simulationTime + 1 ≤ 50) := by omega
    simp [simTick, h1, h2, hn]
  · intro s h1 h2 hle
    by_cases h3 : (s.simulationTime + 1) % 3 = 0
    · simp [simTick, h1, h2, hle, h3, applyAlertEffect_frame]
    · simp [simTick, h1, h2, hle, h3]
  · intro t h3lo h48 hmod
    rw [scenarioRun_inv d gArr draws t (by omega)]
    rcases t with _ | k
    · omega
    · simp only [predsAt]
      rw [if_pos hmod]
  · have hstep : scenarioRun d gArr draws 51 =
        simTick allFailEngine allFailSub d gArr draws (scenarioRun d gArr draws 50) := by
      simp [scenarioRun, Function.iterate_succ_apply']
    rw [hstep, scenarioRun_inv d gArr draws 50 (by norm_num)]
    norm_num [simTick, idleState]

/-- Witness for C6: the end-of-run and time-increment facts at a concrete
running state, and the run itself at the prediction tick 3. -/
theorem simulation_clock_completion_witness :
    simTick allFailEngine allFailSub initialSensors (fun _ _ => 0)
        (fun _ _ => { u := 0, v := 0, jitter := 0 })
        { isSimulating := true, isPaused := false, simulationTime := 50, currentSpeed := 175,
          alertLevel := Risk.safe, enginePrediction := none, subsystemPredictions := [],
          lastRUL := none } =
      { isSimulating := false, isPaused := false, simulationTime := 0, currentSpeed := 0,
        alertLevel := Risk.safe, enginePrediction := none, subsystemPredictions := [],
        lastRUL := none } ∧
    (simTick allFailEngine allFailSub initialSensors (fun _ _ => 0)
        (fun _ _ => { u := 0, v := 0, jitter := 0 })
        { isSimulating := true, isPaused := false, simulationTime := 7, currentSpeed := 0,
          alertLevel := Risk.safe, enginePrediction := none, subsystemPredictions := [],
          lastRUL := none }).simulationTime = 8 ∧
    (scenarioRun initialSensors (fun _ _ => 0) (fun _ _ => { u := 0, v := 0, jitter := 0 })
        3).subsystemPredictions =
      fallbackList 3 (fun _ => { u := 0, v := 0, jitter := 0 }) := by
  refine ⟨?_, ?_, ?_⟩
  · exact (simulation_clock_completion allFailEngine allFailSub initialSensors (fun _ _ => 0)
      (fun _ _ => { u := 0, v := 0, jitter := 0 })).1
      { isSimulating := true, isPaused := false, simulationTime := 50, currentSpeed := 175,
        alertLevel := Risk.safe, enginePrediction := none, subsystemPredictions := [],
        lastRUL := none } rfl rfl (by decide)
  · exact (simulation_clock_completion allFailEngine allFailSub initialSensors (fun _ _ => 0)
      (fun _ _ => { u := 0, v := 0, jitter := 0 })).2.1
      { isSimulating := true, isPaused := false, simulationTime := 7, currentSpeed := 0,
        alertLevel := Risk.safe, enginePrediction := none, subsystemPredictions := [],
        lastRUL := none } rfl rfl (by decide)
  · exact (simulation_clock_completion allFailEngine allFailSub initialSensors (fun _ _ => 0)
      (fun _ _ => { u := 0, v := 0, jitter := 0 })).2.2.1 3 (by omega) (by omega) (by omega)

end AviationSim
